import Mathlib

/-!
Shallow embedding of the pod-visualizer repository (Go) in Lean 4.

The embedding follows the source files:
* `pkg/k8s/client.go` — resource reader (`GetPods`, `GetDeployments`);
* `pkg/web/server.go` — web server: snapshot builder (`getClusterData`),
  broadcast hub (`handleBroadcast`, `clients` map guarded by `clientsMux`),
  bounded broadcast channel (`make(chan ClusterData, 256)` with
  non-blocking sends), watch loops (`watchPods`, `watchDeployments`),
  readiness handler (`handleReady`);
* the CLI visualizer (`DisplayPods`, `DisplayDeployments`).

Go `int`/`int32` readiness counts are modelled as `Int` (the claims under
study concern division-by-zero, percentage ranges and sign conditions, not
machine-width overflow), Go `float64` percentages as `Rat` (the numerators
and denominators involved are small integers, where `float64` arithmetic
is exact for the division-free facts proved, and division is modelled
exactly), a Go panic as `Option.none` of the function that would panic,
and each blocking effect (websocket write, watch session) as an explicit
outcome parameter.
-/

namespace PodVisualizer

/-! ## Data model (`pkg/k8s/client.go`, `pkg/web/server.go`) -/

/-- `k8s.PodInfo`: relevant pod information, as produced by `GetPods`. -/
structure PodInfo where
  name : String
  namespace' : String
  status : String
  containerCount : Int
  readyContainers : Int
deriving Repr, DecidableEq

/-- `k8s.DeploymentInfo`: relevant deployment information, as produced by
`GetDeployments`. -/
structure DeploymentInfo where
  name : String
  namespace' : String
  replicas : Int
  readyReplicas : Int
  availableReplicas : Int
deriving Repr, DecidableEq

/-- `web.PodData`: pod data for the JSON response. -/
structure PodData where
  name : String
  namespace' : String
  status : String
  containerCount : Int
  readyContainers : Int
  statusSymbol : String
deriving Repr, DecidableEq

/-- `web.DeploymentData`: deployment data for the JSON response. -/
structure DeploymentData where
  name : String
  namespace' : String
  replicas : Int
  readyReplicas : Int
  availableReplicas : Int
deriving Repr, DecidableEq

/-- `web.ClusterData`: the complete cluster state.  `lastUpdated` is the
capture instant (`time.Now()`), abstracted to a numeric clock value. -/
structure ClusterData where
  pods : List PodData
  deployments : List DeploymentData
  totalContainers : Int
  readyContainers : Int
  containerPercentage : Rat
  totalReplicas : Int
  readyReplicas : Int
  replicaPercentage : Rat
  lastUpdated : Nat
deriving Repr, DecidableEq

/-- `web.getStatusSymbol`: symbol for a pod status string. -/
def getStatusSymbol (status : String) : String :=
  match status with
  | "Running" => "✅"
  | "Pending" => "⏳"
  | "Failed" => "❌"
  | "Succeeded" => "✅"
  | _ => "❓"

/-! ## Snapshot builder (`web.getClusterData`, lines 399–471)

`getClusterData` first fetches pods and deployments from the reader; the
conversion-and-aggregation part is the pure snapshot builder below.  The
list folds mirror the accumulation loops of the source. -/

/-- Sum of `ContainerCount` over a pod list (`totalContainers`
accumulator of `getClusterData`). -/
def totalContainersOf (pods : List PodInfo) : Int :=
  pods.foldl (fun acc p => acc + p.containerCount) 0

/-- Sum of `ReadyContainers` over a pod list (`readyContainers`
accumulator of `getClusterData`). -/
def readyContainersOf (pods : List PodInfo) : Int :=
  pods.foldl (fun acc p => acc + p.readyContainers) 0

/-- Sum of `Replicas` over a deployment list (`totalReplicas`
accumulator of `getClusterData`). -/
def totalReplicasOf (deps : List DeploymentInfo) : Int :=
  deps.foldl (fun acc d => acc + d.replicas) 0

/-- Sum of `ReadyReplicas` over a deployment list (`readyReplicasTotal`
accumulator of `getClusterData`). -/
def readyReplicasOf (deps : List DeploymentInfo) : Int :=
  deps.foldl (fun acc d => acc + d.readyReplicas) 0

/-- The percentage computation of `getClusterData`:
`ready/total*100` when `total > 0`, else `0.0`. -/
def percentageOf (ready total : Int) : Rat :=
  if 0 < total then (ready : Rat) / (total : Rat) * 100 else 0

/-- `PodData` built from one `PodInfo` (loop body of `getClusterData`). -/
def toPodData (p : PodInfo) : PodData :=
  { name := p.name
    namespace' := p.namespace'
    status := p.status
    containerCount := p.containerCount
    readyContainers := p.readyContainers
    statusSymbol := getStatusSymbol p.status }

/-- `DeploymentData` built from one `DeploymentInfo` (loop body of
`getClusterData`). -/
def toDeploymentData (d : DeploymentInfo) : DeploymentData :=
  { name := d.name
    namespace' := d.namespace'
    replicas := d.replicas
    readyReplicas := d.readyReplicas
    availableReplicas := d.availableReplicas }

/-- The pure conversion-and-aggregation part of `web.getClusterData`
(`server.go` lines 413–471): given the fetched pod and deployment lists,
build the `ClusterData` snapshot.  `now` abstracts `time.Now()`. -/
def buildClusterData (pods : List PodInfo) (deps : List DeploymentInfo)
    (now : Nat) : ClusterData :=
  { pods := pods.map toPodData
    deployments := deps.map toDeploymentData
    totalContainers := totalContainersOf pods
    readyContainers := readyContainersOf pods
    containerPercentage :=
      percentageOf (readyContainersOf pods) (totalContainersOf pods)
    totalReplicas := totalReplicasOf deps
    readyReplicas := readyReplicasOf deps
    replicaPercentage :=
      percentageOf (readyReplicasOf deps) (totalReplicasOf deps)
    lastUpdated := now }

/-! ## Bounded broadcast queue (`web.NewServer`, `server.go` lines 64–73)

`NewServer` creates `broadcast: make(chan ClusterData, 256)`.  Every
producer (`watchPods`, `watchDeployments`, the fallback ticker in
`watchKubernetesEvents`) enqueues with
`select { case s.broadcast <- clusterData: default: }`:
if the buffer is full the new snapshot is skipped.  The channel buffer is
modelled as a FIFO list, oldest first. -/

/-- Capacity of the `broadcast` channel (`make(chan ClusterData, 256)`). -/
def broadcastCap : Nat := 256

/-- The non-blocking send
`select { case s.broadcast <- d: default: }` on the `broadcast`
channel: append `d` if the buffer has room, otherwise drop `d` and leave
the queue as it was. -/
def trySend (q : List ClusterData) (d : ClusterData) : List ClusterData :=
  if q.length < broadcastCap then q ++ [d] else q

/-! ## Watch event handling (`web.watchPods` / `web.watchDeployments`,
`server.go` lines 338–397)

Both watch loops run
`for event := range watcher.ResultChan() { if event.Type == Added || Modified || Deleted { clusterData, err := s.getClusterData(ctx, ""); ...; trySend } }`.
The event's payload (`event.Object`) is never read; the snapshot comes
from a fresh `getClusterData` fetch.  The fetch outcome is the
`fetched : Option ClusterData` parameter (`none` = `getClusterData`
returned an error, which the loop logs and skips). -/

/-- `watch.EventType` of the Kubernetes watch API. -/
inductive EventType where
  | added
  | modified
  | deleted
  | bookmark
  | error
deriving Repr, DecidableEq

/-- The guard `event.Type == watch.Added || event.Type == watch.Modified
|| event.Type == watch.Deleted` of the watch loops. -/
def triggersRebuild (t : EventType) : Bool :=
  t == EventType.added || t == EventType.modified || t == EventType.deleted

/-- One iteration of the inner `for event := range watcher.ResultChan()`
loop body: given the event's type and raw payload, the outcome of the
full re-fetch (`getClusterData`), and the current broadcast queue, return
the new queue together with whether a re-fetch was performed.  The
payload is a parameter only to record that the source never consults it. -/
def handleWatchEvent (t : EventType) (payload : String)
    (fetched : Option ClusterData) (q : List ClusterData) :
    List ClusterData × Bool :=
  if triggersRebuild t then
    match fetched with
    | some d => (trySend q d, true)
    | none => (q, true)
  else (q, false)

/-! ## Watcher reconnect loop (`web.watchPods`, `server.go` lines 338–366)

The outer `for { ... }` of `watchPods` (and identically
`watchDeployments`): each iteration makes one `Watch` connect attempt;
on failure it sleeps 5 seconds and retries, on success it consumes the
session until the result channel closes, then stops the watcher, sleeps
1 second and reconnects.  The environment is a stream of per-attempt
outcomes. -/

/-- Outcome of one connect attempt of the watcher loop: the `Watch` call
fails, or it yields a session delivering a finite list of events before
the source closes the stream. -/
inductive SessionOutcome where
  | connectFail
  | session (events : List EventType)
deriving Repr, DecidableEq

/-- Observable state of the watcher loop: how many connect attempts it
has made and the sleeps (in seconds) it has performed, in order. -/
structure WatcherState where
  attempts : Nat
  sleeps : List Nat
deriving Repr, DecidableEq

/-- One iteration of the outer `for` loop of `watchPods`: a connect
attempt, then either the 5-second failure backoff
(`time.Sleep(5 * time.Second); continue`) or the consumption of the
session followed by the 1-second pause
(`time.Sleep(1 * time.Second)`) before reconnecting.  Either way the
loop continues with the next iteration. -/
def watcherIter (o : SessionOutcome) (s : WatcherState) : WatcherState :=
  match o with
  | SessionOutcome.connectFail => ⟨s.attempts + 1, s.sleeps ++ [5]⟩
  | SessionOutcome.session _ => ⟨s.attempts + 1, s.sleeps ++ [1]⟩

/-- The watcher loop after `n` iterations against the environment `env`
(the outcome of the `i`-th connect attempt is `env i`).  The loop has no
exit: `watcherRun env (n+1)` is always one more `watcherIter` applied to
`watcherRun env n`. -/
def watcherRun (env : Nat → SessionOutcome) : Nat → WatcherState
  | 0 => ⟨0, []⟩
  | n + 1 => watcherIter (env n) (watcherRun env n)

/-! ## Readiness handler (`web.handleReady`, `server.go` lines 225–248) -/

/-- The timeout, in seconds, that `handleReady` puts on its probe
context (`context.WithTimeout(r.Context(), 5*time.Second)`). -/
def readyProbeTimeoutSeconds : Nat := 5

/-- The namespace argument `handleReady` passes to `GetPods`: `""`,
meaning all namespaces. -/
def readyProbeNamespace : String := ""

/-- An HTTP response as far as the readiness claims observe it: status
code, status field of the JSON body, and the error field when present. -/
structure ReadyResponse where
  statusCode : Nat
  statusText : String
  errorText : Option String
deriving Repr, DecidableEq

/-- `web.handleReady`, given the outcome of
`s.client.GetPods(ctx, "")` under the 5-second context (an expired
context surfaces as an error from the list call): 503 with the error in
the body on failure, 200 on success. -/
def handleReady (probe : Except String (List PodInfo)) : ReadyResponse :=
  match probe with
  | Except.error e =>
      { statusCode := 503, statusText := "not ready", errorText := some e }
  | Except.ok _ =>
      { statusCode := 200, statusText := "ready", errorText := none }

/-! ## Resource reader (`k8s.GetDeployments`, `client.go` lines 104–131)

The list response items carry `Spec.Replicas` as a pointer
(`*int32`), modelled as `Option Int`; the conversion loop dereferences
it unconditionally (`Replicas: *deployment.Spec.Replicas`).  A nil
dereference is a Go runtime panic, modelled as `none` of the whole
conversion. -/

/-- Left-to-right effectful map over `Option`, mirroring a Go `for`
loop that either panics at the first bad element (`none`) or collects
every result in order. -/
def optionMapM {α β : Type} (f : α → Option β) : List α → Option (List β)
  | [] => some []
  | x :: xs =>
      match f x with
      | none => none
      | some y =>
          match optionMapM f xs with
          | none => none
          | some ys => some (y :: ys)

/-- One `appsv1.Deployment` of the list response, restricted to the
fields `GetDeployments` reads.  `specReplicas` is the `Spec.Replicas`
pointer. -/
structure ApiDeployment where
  name : String
  namespace' : String
  specReplicas : Option Int
  statusReadyReplicas : Int
  statusAvailableReplicas : Int
deriving Repr, DecidableEq

/-- The loop body of `GetDeployments`: build one `DeploymentInfo`,
dereferencing `Spec.Replicas`; `none` is the nil-pointer panic. -/
def deploymentInfoOf (d : ApiDeployment) : Option DeploymentInfo :=
  match d.specReplicas with
  | some r =>
      some { name := d.name
             namespace' := d.namespace'
             replicas := r
             readyReplicas := d.statusReadyReplicas
             availableReplicas := d.statusAvailableReplicas }
  | none => none

/-- `k8s.GetDeployments` after a successful list call: convert every
item of the response; `none` is the panic raised on the first item whose
`Spec.Replicas` pointer is nil.  No error value is ever produced for a
nil pointer — the error return of `GetDeployments` covers only the list
call itself. -/
def getDeploymentsConvert (items : List ApiDeployment) :
    Option (List DeploymentInfo) :=
  optionMapM deploymentInfoOf items

/-! ## CLI visualizer (`visualizer.DisplayPods` /
`visualizer.DisplayDeployments`)

`strings.Repeat(s, n)` panics when `n < 0`; the panic is modelled as
`none`.  `New()` fixes `blockChar = "█"`, `emptyChar = "░"`. -/

/-- `strings.Repeat` on a count that is a Go `int`: `none` models the
`strings: negative Repeat count` panic. -/
def stringsRepeat (s : String) (n : Int) : Option String :=
  if n < 0 then none
  else some (String.join (List.replicate n.toNat s))

/-- `Visualizer.blockChar` as set by `visualizer.New`. -/
def blockChar : String := "█"

/-- `Visualizer.emptyChar` as set by `visualizer.New`. -/
def emptyChar : String := "░"

/-- The per-pod body of the `DisplayPods` loop: the ready blocks
(`strings.Repeat(blockChar, pod.ReadyContainers)`), the not-ready blocks
(`strings.Repeat(emptyChar, pod.ContainerCount-pod.ReadyContainers)`),
and the printed line. -/
def displayPodLine (p : PodInfo) : Option String := do
  let readyBlocks ← stringsRepeat blockChar p.readyContainers
  let notReadyBlocks ←
    stringsRepeat emptyChar (p.containerCount - p.readyContainers)
  pure (getStatusSymbol p.status ++ " " ++ p.namespace' ++ "/" ++ p.name ++
    ": " ++ readyBlocks ++ notReadyBlocks)

/-- The per-deployment body of the `DisplayDeployments` loop. -/
def displayDeploymentLine (d : DeploymentInfo) : Option String := do
  let readyBlocks ← stringsRepeat blockChar d.readyReplicas
  let notReadyBlocks ←
    stringsRepeat emptyChar (d.replicas - d.readyReplicas)
  pure ("📦 " ++ d.namespace' ++ "/" ++ d.name ++ ": " ++ readyBlocks ++
    notReadyBlocks)

/-- `displayContainerSummary` / `displayReplicaSummary`: the 50-wide
progress bar.  `filledWidth = int(float64(barWidth) * percentage / 100)`
truncates toward zero, which on the values at hand is `Int.floor` for
nonnegative and `-Int.floor (-x)` otherwise; `Rat.floor` with an
explicit truncation models `int(...)`. -/
def summaryBar (ready total : Int) : Option String := do
  let percentage : Rat := if 0 < total then (ready : Rat) / (total : Rat) * 100 else 0
  let scaled : Rat := 50 * percentage / 100
  let filledWidth : Int := if 0 ≤ scaled then ⌊scaled⌋ else -⌊-scaled⌋
  let emptyWidth : Int := 50 - filledWidth
  let filled ← stringsRepeat blockChar filledWidth
  let empty ← stringsRepeat emptyChar emptyWidth
  pure (filled ++ empty)

/-- `visualizer.DisplayPods`: print every pod line, then the container
summary bar over the accumulated totals.  `none` models a panic anywhere
in the rendering; `some` carries the printed lines. -/
def displayPods (pods : List PodInfo) : Option (List String) :=
  if pods.length = 0 then some ["No pods found."]
  else do
    let lines ← optionMapM displayPodLine pods
    let bar ← summaryBar (readyContainersOf pods) (totalContainersOf pods)
    pure (lines ++ [bar])

/-- `visualizer.DisplayDeployments`: print every deployment line, then
the replica summary bar. -/
def displayDeployments (deps : List DeploymentInfo) : Option (List String) :=
  if deps.length = 0 then some ["No deployments found."]
  else do
    let lines ← optionMapM displayDeploymentLine deps
    let bar ← summaryBar (readyReplicasOf deps) (totalReplicasOf deps)
    pure (lines ++ [bar])

/-! ## Broadcast hub (`web.handleBroadcast`, `server.go` lines 287–304)

One snapshot is popped from the `broadcast` channel; the loop
`for conn := range s.clients { err := conn.WriteJSON(clusterData); if err != nil { conn.Close(); delete(s.clients, conn) } }`
attempts a synchronous write to every registered connection in
iteration order.  `conn.WriteJSON` is a plain blocking socket write:
the source sets no write deadline anywhere and gives a subscriber no
outbound channel of its own, so towards a peer whose socket buffer is
full the call neither succeeds nor returns an error — it blocks the
loop, which is holding the read lock, indefinitely. -/

/-- A websocket connection handle (`*websocket.Conn`), abstracted. -/
abbrev Conn := Nat

/-- Behaviour of one `conn.WriteJSON(clusterData)` call: the write
completes, the write returns an error, or — the full-buffer case under
no write deadline — the write blocks forever. -/
inductive WriteResult where
  | ok
  | error
  | block
deriving Repr, DecidableEq

/-- Result of one `handleBroadcast` delivery pass: who received the
snapshot, who was closed and deleted, the subscriber set afterwards,
and the connection the loop is stuck writing to, when there is one. -/
structure BroadcastResult where
  delivered : List Conn
  closed : List Conn
  remaining : List Conn
  stuckAt : Option Conn
deriving Repr, DecidableEq

/-- The delivery loop of `handleBroadcast` over the registered
connections (in iteration order): a completed write delivers the
snapshot and keeps the connection registered; a write error closes the
connection, deletes it from `s.clients`, and the loop continues with
the next connection; a blocking write halts the loop at that
connection — nothing further is delivered, nothing is closed or
deleted (the blocked connection included), and every connection from
that point on stays registered. -/
def broadcastPass (write : Conn → WriteResult) : List Conn → BroadcastResult
  | [] => ⟨[], [], [], none⟩
  | c :: cs =>
      match write c with
      | WriteResult.ok =>
          let rest := broadcastPass write cs
          ⟨c :: rest.delivered, rest.closed, c :: rest.remaining,
            rest.stuckAt⟩
      | WriteResult.error =>
          let rest := broadcastPass write cs
          ⟨rest.delivered, c :: rest.closed, rest.remaining, rest.stuckAt⟩
      | WriteResult.block => ⟨[], [], c :: cs, some c⟩

/-! ## Lock discipline of the subscriber set (`server.go`)

`s.clients` is touched at three places:
* `handleWebSocket` register (lines 265–267): `clientsMux.Lock()` …
  `s.clients[conn] = true` … `Unlock()`;
* `handleWebSocket` deferred unregister (lines 257–262):
  `clientsMux.Lock()` … `delete(s.clients, conn)` … `Unlock()`;
* `handleBroadcast` publish iteration (lines 292–301):
  `clientsMux.RLock()` … `for conn := range s.clients { … }` …
  `RUnlock()`.

`handleBroadcast` is started exactly once (`go s.handleBroadcast()` in
`Start`), so thread 0 below is the unique publisher; every other thread
is a connection handler.  The transition system gives each thread a
region (outside any critical section, inside a read section, inside a
write section) and enforces the `sync.RWMutex` acquisition rules. -/

/-- Where a thread stands with respect to `clientsMux`. -/
inductive Region where
  | outside
  | readCS
  | writeCS
deriving Repr, DecidableEq

/-- A thread id; thread 0 is the unique `handleBroadcast` goroutine,
all others are `handleWebSocket` handlers. -/
abbrev ThreadId := Nat

/-- System configuration: the region of every thread. -/
def HubConfig := ThreadId → Region

/-- Initially every thread is outside the lock. -/
def hubInit : HubConfig := fun _ => Region.outside

/-- Update the region of one thread. -/
def setRegion (cfg : HubConfig) (t : ThreadId) (r : Region) : HubConfig :=
  fun u => if u = t then r else cfg u

/-- `sync.RWMutex` transitions, restricted to how `server.go` uses the
lock: only the publisher (thread 0) takes the read lock
(`handleBroadcast` is the sole `RLock` site on `clientsMux`), and only
handler threads take the write lock (`handleWebSocket` register and
unregister are the sole `Lock` sites).  `RLock` blocks while a writer
is inside; `Lock` blocks while anyone is inside. -/
inductive HubStep : HubConfig → HubConfig → Prop where
  | enterRead (cfg : HubConfig) :
      cfg 0 = Region.outside →
      (∀ u, cfg u ≠ Region.writeCS) →
      HubStep cfg (setRegion cfg 0 Region.readCS)
  | exitRead (cfg : HubConfig) :
      cfg 0 = Region.readCS →
      HubStep cfg (setRegion cfg 0 Region.outside)
  | enterWrite (cfg : HubConfig) (t : ThreadId) :
      t ≠ 0 →
      cfg t = Region.outside →
      (∀ u, u ≠ t → cfg u = Region.outside) →
      HubStep cfg (setRegion cfg t Region.writeCS)
  | exitWrite (cfg : HubConfig) (t : ThreadId) :
      t ≠ 0 →
      cfg t = Region.writeCS →
      HubStep cfg (setRegion cfg t Region.outside)

/-- Configurations reachable from the initial one. -/
def HubReachable (cfg : HubConfig) : Prop :=
  Relation.ReflTransGen HubStep hubInit cfg

/-- The operations of the hub, with the critical-section kind each one
runs in, read off the source: register and unregister mutate
`s.clients` under the write lock; the publish iteration walks
`s.clients` (and deletes dead connections) under the read lock, on the
publisher thread. -/
inductive HubOp where
  | register
  | unregister
  | publishIterate
deriving Repr, DecidableEq

/-- The region in which each operation's touch of `s.clients` happens. -/
def opRegion : HubOp → Region
  | HubOp.register => Region.writeCS
  | HubOp.unregister => Region.writeCS
  | HubOp.publishIterate => Region.readCS

/-- A thread may perform an operation only while in that operation's
region, and only on the thread kind the source assigns it. -/
def mayPerform (cfg : HubConfig) (t : ThreadId) (op : HubOp) : Prop :=
  cfg t = opRegion op ∧ (op = HubOp.publishIterate ↔ t = 0)

/-! ## Helper lemmas -/

/-- The accumulation loops of `getClusterData` compute the sum of the
projected field. -/
lemma foldl_add_map {α : Type} (f : α → Int) (l : List α) (a : Int) :
    l.foldl (fun acc x => acc + f x) a = a + (l.map f).sum := by
  induction l generalizing a with
  | nil => simp
  | cons x xs ih => simp [List.foldl, ih, add_assoc]

lemma totalContainersOf_eq (pods : List PodInfo) :
    totalContainersOf pods = (pods.map PodInfo.containerCount).sum := by
  simpa using foldl_add_map PodInfo.containerCount pods 0

lemma readyContainersOf_eq (pods : List PodInfo) :
    readyContainersOf pods = (pods.map PodInfo.readyContainers).sum := by
  simpa using foldl_add_map PodInfo.readyContainers pods 0

lemma totalReplicasOf_eq (deps : List DeploymentInfo) :
    totalReplicasOf deps = (deps.map DeploymentInfo.replicas).sum := by
  simpa using foldl_add_map DeploymentInfo.replicas deps 0

lemma readyReplicasOf_eq (deps : List DeploymentInfo) :
    readyReplicasOf deps = (deps.map DeploymentInfo.readyReplicas).sum := by
  simpa using foldl_add_map DeploymentInfo.readyReplicas deps 0

/-- Pointwise `0 ≤ f ≤ g` gives `0 ≤ Σf ≤ Σg`. -/
lemma sum_bounds {α : Type} (f g : α → Int) (l : List α)
    (h : ∀ x ∈ l, 0 ≤ f x ∧ f x ≤ g x) :
    0 ≤ (l.map f).sum ∧ (l.map f).sum ≤ (l.map g).sum := by
  induction l with
  | nil => simp
  | cons x xs ih =>
      have hx := h x (List.mem_cons_self x xs)
      have hxs := ih (fun y hy => h y (List.mem_cons_of_mem x hy))
      constructor
      · simpa using add_nonneg hx.1 hxs.1
      · simpa using add_le_add hx.2 hxs.2

/-- The percentage formula stays in `[0, 100]` whenever
`0 ≤ ready ≤ total`. -/
lemma percentageOf_bounds (r t : Int) (h0 : 0 ≤ r) (h1 : r ≤ t) :
    0 ≤ percentageOf r t ∧ percentageOf r t ≤ 100 := by
  unfold percentageOf
  by_cases ht : 0 < t
  · simp only [if_pos ht]
    have htq : (0 : Rat) < (t : Rat) := by exact_mod_cast ht
    have h0q : (0 : Rat) ≤ (r : Rat) := by exact_mod_cast h0
    have h1q : (r : Rat) ≤ (t : Rat) := by exact_mod_cast h1
    constructor
    · positivity
    · have hdiv : (r : Rat) / (t : Rat) ≤ 1 :=
        (div_le_one htq).mpr h1q
      calc (r : Rat) / (t : Rat) * 100 ≤ 1 * 100 := by
            exact mul_le_mul_of_nonneg_right hdiv (by norm_num)
        _ = 100 := by norm_num
  · simp [if_neg ht]

/-! ## Claims about the snapshot builder -/

/-- **C3.**  For every input list of pods and deployments, the snapshot
builder computes `containerPercentage` as
`readyContainers/totalContainers*100` when `totalContainers > 0` and
exactly `0` when `totalContainers = 0` (the result is a total function,
never NaN or an error), and likewise `replicaPercentage` from the
replica totals; whenever each record satisfies `0 ≤ ready ≤ total`,
both percentages lie in `[0, 100]`. -/
theorem snapshot_percentages_correct (pods : List PodInfo)
    (deps : List DeploymentInfo) (now : Nat) :
    (0 < (buildClusterData pods deps now).totalContainers →
      (buildClusterData pods deps now).containerPercentage =
        ((buildClusterData pods deps now).readyContainers : Rat) /
          ((buildClusterData pods deps now).totalContainers : Rat) * 100) ∧
    ((buildClusterData pods deps now).totalContainers = 0 →
      (buildClusterData pods deps now).containerPercentage = 0) ∧
    (0 < (buildClusterData pods deps now).totalReplicas →
      (buildClusterData pods deps now).replicaPercentage =
        ((buildClusterData pods deps now).readyReplicas : Rat) /
          ((buildClusterData pods deps now).totalReplicas : Rat) * 100) ∧
    ((buildClusterData pods deps now).totalReplicas = 0 →
      (buildClusterData pods deps now).replicaPercentage = 0) ∧
    ((∀ p ∈ pods, 0 ≤ p.readyContainers ∧
        p.readyContainers ≤ p.containerCount) →
      0 ≤ (buildClusterData pods deps now).containerPercentage ∧
        (buildClusterData pods deps now).containerPercentage ≤ 100) ∧
    ((∀ d ∈ deps, 0 ≤ d.readyReplicas ∧ d.readyReplicas ≤ d.replicas) →
      0 ≤ (buildClusterData pods deps now).replicaPercentage ∧
        (buildClusterData pods deps now).replicaPercentage ≤ 100) := by
  refine ⟨?_, ?_, ?_, ?_, ?_, ?_⟩
  · intro ht
    simp only [buildClusterData, percentageOf] at *
    simp [if_pos ht]
  · intro ht
    simp only [buildClusterData, percentageOf] at *
    simp [ht]
  · intro ht
    simp only [buildClusterData, percentageOf] at *
    simp [if_pos ht]
  · intro ht
    simp only [buildClusterData, percentageOf] at *
    simp [ht]
  · intro h
    have hs := sum_bounds PodInfo.readyContainers PodInfo.containerCount pods h
    have hb := percentageOf_bounds ((pods.map PodInfo.readyContainers).sum)
      ((pods.map PodInfo.containerCount).sum) hs.1 hs.2
    simpa [buildClusterData, readyContainersOf_eq, totalContainersOf_eq]
      using hb
  · intro h
    have hs := sum_bounds DeploymentInfo.readyReplicas
      DeploymentInfo.replicas deps h
    have hb := percentageOf_bounds ((deps.map DeploymentInfo.readyReplicas).sum)
      ((deps.map DeploymentInfo.replicas).sum) hs.1 hs.2
    simpa [buildClusterData, readyReplicasOf_eq, totalReplicasOf_eq]
      using hb

/-- Concrete instantiation of `snapshot_percentages_correct`, with each
implication hypothesis discharged on an explicit input. -/
theorem snapshot_percentages_correct_witness :
    ((buildClusterData [⟨"a", "default", "Running", 2, 1⟩] [⟨"d", "default", 3, 1, 1⟩] 0).totalContainers = 0 →
      (buildClusterData [⟨"a", "default", "Running", 2, 1⟩] [⟨"d", "default", 3, 1, 1⟩] 0).containerPercentage = 0) ∧
    (0 ≤ (buildClusterData [⟨"a", "default", "Running", 2, 1⟩] [⟨"d", "default", 3, 1, 1⟩] 0).containerPercentage ∧
      (buildClusterData [⟨"a", "default", "Running", 2, 1⟩] [⟨"d", "default", 3, 1, 1⟩] 0).containerPercentage ≤ 100) ∧
    (0 ≤ (buildClusterData [⟨"a", "default", "Running", 2, 1⟩] [⟨"d", "default", 3, 1, 1⟩] 0).replicaPercentage ∧
      (buildClusterData [⟨"a", "default", "Running", 2, 1⟩] [⟨"d", "default", 3, 1, 1⟩] 0).replicaPercentage ≤ 100) :=
  ⟨(snapshot_percentages_correct [⟨"a", "default", "Running", 2, 1⟩]
      [⟨"d", "default", 3, 1, 1⟩] 0).2.1,
   (snapshot_percentages_correct [⟨"a", "default", "Running", 2, 1⟩]
      [⟨"d", "default", 3, 1, 1⟩] 0).2.2.2.2.1 (by decide),
   (snapshot_percentages_correct [⟨"a", "default", "Running", 2, 1⟩]
      [⟨"d", "default", 3, 1, 1⟩] 0).2.2.2.2.2 (by decide)⟩

/-- **C7.**  For two pods (pod A with 2 of 2 containers ready, status
Running; pod B with 1 of 2 ready, status Pending) and one deployment
with 1 ready replica of 3 desired, the built snapshot reports
`totalContainers = 4`, `readyContainers = 3`,
`containerPercentage = 75.0`, `totalReplicas = 3`, `readyReplicas = 1`,
and `replicaPercentage = 100/3 ≈ 33.33` (within 0.01). -/
theorem snapshot_end_to_end_example :
    (buildClusterData
      [⟨"pod-a", "default", "Running", 2, 2⟩,
       ⟨"pod-b", "default", "Pending", 2, 1⟩]
      [⟨"dep", "default", 3, 1, 1⟩] 0).totalContainers = 4 ∧
    (buildClusterData
      [⟨"pod-a", "default", "Running", 2, 2⟩,
       ⟨"pod-b", "default", "Pending", 2, 1⟩]
      [⟨"dep", "default", 3, 1, 1⟩] 0).readyContainers = 3 ∧
    (buildClusterData
      [⟨"pod-a", "default", "Running", 2, 2⟩,
       ⟨"pod-b", "default", "Pending", 2, 1⟩]
      [⟨"dep", "default", 3, 1, 1⟩] 0).containerPercentage = 75 ∧
    (buildClusterData
      [⟨"pod-a", "default", "Running", 2, 2⟩,
       ⟨"pod-b", "default", "Pending", 2, 1⟩]
      [⟨"dep", "default", 3, 1, 1⟩] 0).totalReplicas = 3 ∧
    (buildClusterData
      [⟨"pod-a", "default", "Running", 2, 2⟩,
       ⟨"pod-b", "default", "Pending", 2, 1⟩]
      [⟨"dep", "default", 3, 1, 1⟩] 0).readyReplicas = 1 ∧
    (buildClusterData
      [⟨"pod-a", "default", "Running", 2, 2⟩,
       ⟨"pod-b", "default", "Pending", 2, 1⟩]
      [⟨"dep", "default", 3, 1, 1⟩] 0).replicaPercentage = 100 / 3 ∧
    |(buildClusterData
      [⟨"pod-a", "default", "Running", 2, 2⟩,
       ⟨"pod-b", "default", "Pending", 2, 1⟩]
      [⟨"dep", "default", 3, 1, 1⟩] 0).replicaPercentage -
        3333 / 100| < 1 / 100 := by
  refine ⟨by decide, by decide, ?_, by decide, by decide, ?_, ?_⟩
  · norm_num [buildClusterData, percentageOf, totalContainersOf,
      readyContainersOf]
  · norm_num [buildClusterData, percentageOf, totalReplicasOf,
      readyReplicasOf]
  · norm_num [buildClusterData, percentageOf, totalReplicasOf,
      readyReplicasOf]
    rw [abs_of_nonneg (by norm_num)]
    norm_num

/-! ## Claims about the broadcast queue and the watch loops -/

/-- **C4.**  The snapshot queue between the rebuild paths and the single
broadcast consumer is bounded by its capacity 256; a send into a full
queue discards the newly produced snapshot and leaves the queued ones
unchanged (drop-newest, no blocking, no growth), while a send into a
non-full queue appends. -/
theorem broadcast_queue_drop_newest (q : List ClusterData) (d : ClusterData) :
    (broadcastCap ≤ q.length → trySend q d = q) ∧
    (q.length < broadcastCap → trySend q d = q ++ [d]) ∧
    (q.length ≤ broadcastCap → (trySend q d).length ≤ broadcastCap) := by
  refine ⟨?_, ?_, ?_⟩
  · intro h
    have : ¬ q.length < broadcastCap := not_lt.mpr h
    simp [trySend, this]
  · intro h
    simp [trySend, h]
  · intro h
    by_cases hlt : q.length < broadcastCap
    · simp [trySend, hlt]
      omega
    · simp [trySend, hlt]
      exact h

/-- Concrete instantiation of `broadcast_queue_drop_newest` on a full
queue of 256 snapshots: the send leaves the queue unchanged. -/
theorem broadcast_queue_drop_newest_witness :
    broadcastCap ≤ (List.replicate 256
        (⟨[], [], 0, 0, 0, 0, 0, 0, 0⟩ : ClusterData)).length ∧
    trySend (List.replicate 256 (⟨[], [], 0, 0, 0, 0, 0, 0, 0⟩ : ClusterData))
        ⟨[], [], 0, 0, 0, 0, 0, 0, 0⟩ =
      List.replicate 256 (⟨[], [], 0, 0, 0, 0, 0, 0, 0⟩ : ClusterData) :=
  ⟨by simp only [List.length_replicate]; exact Nat.le_refl 256,
   (broadcast_queue_drop_newest
      (List.replicate 256 (⟨[], [], 0, 0, 0, 0, 0, 0, 0⟩ : ClusterData))
      ⟨[], [], 0, 0, 0, 0, 0, 0, 0⟩).1
      (by simp only [List.length_replicate]; exact Nat.le_refl 256)⟩

/-- **C5.**  While streaming, an event of type Added, Modified or
Deleted (exactly those types satisfy the guard) triggers a full
re-fetch; when the re-fetch succeeds, the freshly fetched snapshot — not
the event payload — is pushed with the non-blocking send; an event of
any other type changes nothing and fetches nothing; and the handler's
result never depends on the event payload. -/
theorem watch_event_rebuild_policy (t : EventType) (p p' : String)
    (d : ClusterData) (fetched : Option ClusterData) (q : List ClusterData) :
    (triggersRebuild t = true ↔
      (t = EventType.added ∨ t = EventType.modified ∨
        t = EventType.deleted)) ∧
    (triggersRebuild t = true →
      handleWatchEvent t p (some d) q = (trySend q d, true)) ∧
    (triggersRebuild t = false →
      handleWatchEvent t p fetched q = (q, false)) ∧
    handleWatchEvent t p fetched q = handleWatchEvent t p' fetched q := by
  refine ⟨?_, ?_, ?_, ?_⟩
  · cases t <;> simp [triggersRebuild]
  · intro h
    simp [handleWatchEvent, h]
  · intro h
    simp [handleWatchEvent, h]
  · rfl

/-- Concrete instantiation of `watch_event_rebuild_policy`: an Added
event enqueues the fetched snapshot; a Bookmark event is ignored. -/
theorem watch_event_rebuild_policy_witness :
    handleWatchEvent EventType.added "payload-a"
        (some ⟨[], [], 0, 0, 0, 0, 0, 0, 0⟩) [] =
      (trySend [] ⟨[], [], 0, 0, 0, 0, 0, 0, 0⟩, true) ∧
    handleWatchEvent EventType.bookmark "payload-a"
        (some ⟨[], [], 0, 0, 0, 0, 0, 0, 0⟩) [] = ([], false) :=
  ⟨(watch_event_rebuild_policy EventType.added "payload-a" "payload-a"
      ⟨[], [], 0, 0, 0, 0, 0, 0, 0⟩
      (some ⟨[], [], 0, 0, 0, 0, 0, 0, 0⟩) []).2.1 rfl,
   (watch_event_rebuild_policy EventType.bookmark "payload-a" "payload-a"
      ⟨[], [], 0, 0, 0, 0, 0, 0, 0⟩
      (some ⟨[], [], 0, 0, 0, 0, 0, 0, 0⟩) []).2.2.1 rfl⟩

/-- **C6.**  The watcher loop has no terminal state: after any number of
iterations the next iteration is again defined by one more connect
attempt; every iteration makes exactly one connect attempt (so the
attempt count after `n` iterations is `n` and grows without bound); a
failed connect waits the fixed 5-second backoff, a session that ends
pauses 1 second before reconnecting; and against an environment whose
every session closes immediately, two iterations already make 2 ≥ 2
connect attempts. -/
theorem watcher_reconnect_forever :
    (∀ (env : Nat → SessionOutcome) (n : Nat),
      watcherRun env (n + 1) = watcherIter (env n) (watcherRun env n)) ∧
    (∀ (env : Nat → SessionOutcome) (n : Nat),
      (watcherRun env n).attempts = n) ∧
    (∀ s : WatcherState, watcherIter SessionOutcome.connectFail s =
      ⟨s.attempts + 1, s.sleeps ++ [5]⟩) ∧
    (∀ (s : WatcherState) (evs : List EventType),
      watcherIter (SessionOutcome.session evs) s =
        ⟨s.attempts + 1, s.sleeps ++ [1]⟩) ∧
    2 ≤ (watcherRun (fun _ => SessionOutcome.session []) 2).attempts := by
  have hrun : ∀ (env : Nat → SessionOutcome) (n : Nat),
      (watcherRun env n).attempts = n := by
    intro env n
    induction n with
    | zero => rfl
    | succ k ih =>
        cases h : env k <;>
          simp [watcherRun, watcherIter, h, ih]
  refine ⟨fun env n => rfl, hrun, fun s => rfl, fun s evs => rfl, ?_⟩
  rw [hrun]

/-! ## Claim about the readiness handler -/

/-- **C8.**  The readiness handler probes the data source with a
5-second timeout on the all-namespaces pod list; it answers 200 exactly
when the probe succeeds, and on a probe error it answers 503 with the
error text in the body. -/
theorem ready_handler_correct :
    readyProbeTimeoutSeconds = 5 ∧
    readyProbeNamespace = "" ∧
    (∀ r : Except String (List PodInfo),
      ((handleReady r).statusCode = 200 ↔ ∃ pods, r = Except.ok pods)) ∧
    (∀ e : String, handleReady (Except.error e) =
      ⟨503, "not ready", some e⟩) := by
  refine ⟨rfl, rfl, ?_, fun e => rfl⟩
  intro r
  cases r with
  | error e => simp [handleReady]
  | ok pods => simp [handleReady]

/-! ## Claims about the resource reader and the CLI renderers -/

/-- `optionMapM` fails as soon as one element fails. -/
lemma mapM_eq_none_of_mem {α β : Type} (f : α → Option β) (l : List α)
    (x : α) (hx : x ∈ l) (hfx : f x = none) : optionMapM f l = none := by
  induction l with
  | nil => cases hx
  | cons a as ih =>
      rcases List.mem_cons.mp hx with h | h
      · subst h
        simp [optionMapM, hfx]
      · cases hfa : f a with
        | none => simp [optionMapM, hfa]
        | some b => simp [optionMapM, hfa, ih h]

/-- `optionMapM` succeeds when every element succeeds. -/
lemma mapM_isSome_of_forall {α β : Type} (f : α → Option β) (l : List α)
    (h : ∀ x ∈ l, (f x).isSome) : (optionMapM f l).isSome := by
  induction l with
  | nil => simp [optionMapM]
  | cons a as ih =>
      have ha := h a (List.mem_cons_self a as)
      obtain ⟨b, hb⟩ := Option.isSome_iff_exists.mp ha
      have hrest := ih (fun x hx => h x (List.mem_cons_of_mem a hx))
      obtain ⟨bs, hbs⟩ := Option.isSome_iff_exists.mp hrest
      simp [optionMapM, hb, hbs]

/-- **C9.**  The deployment conversion of `GetDeployments` is total when
every item of the list response has its `Spec.Replicas` pointer set, and
for a response containing an item with that pointer nil it panics (the
nil dereference, modelled by `none`) rather than producing an error
value. -/
theorem getDeployments_nil_replicas_panics
    (items : List ApiDeployment) (d : ApiDeployment) :
    ((∀ x ∈ items, x.specReplicas.isSome) →
      (getDeploymentsConvert items).isSome) ∧
    (d ∈ items → d.specReplicas = none →
      getDeploymentsConvert items = none) := by
  constructor
  · intro h
    refine mapM_isSome_of_forall deploymentInfoOf items ?_
    intro x hx
    obtain ⟨r, hr⟩ := Option.isSome_iff_exists.mp (h x hx)
    simp [deploymentInfoOf, hr]
  · intro hmem hnil
    refine mapM_eq_none_of_mem deploymentInfoOf items d hmem ?_
    simp [deploymentInfoOf, hnil]

/-- Concrete instantiation of `getDeployments_nil_replicas_panics`: a
single-item response with `Spec.Replicas` nil makes the conversion
panic, and a fully-populated response converts. -/
theorem getDeployments_nil_replicas_panics_witness :
    getDeploymentsConvert [⟨"broken", "default", none, 0, 0⟩] = none ∧
    (getDeploymentsConvert [⟨"ok", "default", some 3, 1, 1⟩]).isSome :=
  ⟨(getDeployments_nil_replicas_panics [⟨"broken", "default", none, 0, 0⟩]
      ⟨"broken", "default", none, 0, 0⟩).2 (by decide) rfl,
   (getDeployments_nil_replicas_panics [⟨"ok", "default", some 3, 1, 1⟩]
      ⟨"ok", "default", some 3, 1, 1⟩).1 (by decide)⟩

/-- A pod whose ready count exceeds its container count makes its
display line panic: either the ready count is negative (first
`strings.Repeat`) or the remainder is negative (second). -/
lemma displayPodLine_eq_none_of_excess (p : PodInfo)
    (h : p.containerCount < p.readyContainers) :
    displayPodLine p = none := by
  by_cases hr : p.readyContainers < 0
  · simp [displayPodLine, stringsRepeat, hr]
  · have hneg : p.containerCount - p.readyContainers < 0 := by omega
    simp [displayPodLine, stringsRepeat, hr, hneg]

/-- A deployment whose ready replicas exceed its desired replicas makes
its display line panic. -/
lemma displayDeploymentLine_eq_none_of_excess (d : DeploymentInfo)
    (h : d.replicas < d.readyReplicas) :
    displayDeploymentLine d = none := by
  by_cases hr : d.readyReplicas < 0
  · simp [displayDeploymentLine, stringsRepeat, hr]
  · have hneg : d.replicas - d.readyReplicas < 0 := by omega
    simp [displayDeploymentLine, stringsRepeat, hr, hneg]

/-- **C10.**  The CLI renderers are safe only under `ready ≤ total`: a
pod record with `ReadyContainers > ContainerCount` makes `DisplayPods`
panic (`strings.Repeat` with a negative count, modelled by `none`), and
a deployment record with `ReadyReplicas > Replicas` makes
`DisplayDeployments` panic the same way; neither renders nor reports an
error. -/
theorem cli_renderers_panic_on_excess_ready
    (pods : List PodInfo) (p : PodInfo)
    (deps : List DeploymentInfo) (d : DeploymentInfo) :
    (p ∈ pods → p.containerCount < p.readyContainers →
      displayPods pods = none) ∧
    (d ∈ deps → d.replicas < d.readyReplicas →
      displayDeployments deps = none) := by
  constructor
  · intro hmem hlt
    have hnil : pods.length ≠ 0 :=
      List.length_pos.mpr (List.ne_nil_of_mem hmem) |>.ne'
    have hline := displayPodLine_eq_none_of_excess p hlt
    have hmap := mapM_eq_none_of_mem displayPodLine pods p hmem hline
    simp [displayPods, hnil, hmap]
  · intro hmem hlt
    have hnil : deps.length ≠ 0 :=
      List.length_pos.mpr (List.ne_nil_of_mem hmem) |>.ne'
    have hline := displayDeploymentLine_eq_none_of_excess d hlt
    have hmap := mapM_eq_none_of_mem displayDeploymentLine deps d hmem hline
    simp [displayDeployments, hnil, hmap]

/-- Concrete instantiation of `cli_renderers_panic_on_excess_ready`: a
pod with 2 of 1 containers ready and a deployment with 2 of 1 replicas
ready each crash their renderer. -/
theorem cli_renderers_panic_on_excess_ready_witness :
    displayPods [⟨"p", "ns", "Running", 1, 2⟩] = none ∧
    displayDeployments [⟨"d", "ns", 1, 2, 1⟩] = none :=
  ⟨(cli_renderers_panic_on_excess_ready [⟨"p", "ns", "Running", 1, 2⟩]
      ⟨"p", "ns", "Running", 1, 2⟩ [] ⟨"d", "ns", 1, 2, 1⟩).1
      (by decide) (by decide),
   (cli_renderers_panic_on_excess_ready [] ⟨"p", "ns", "Running", 1, 2⟩
      [⟨"d", "ns", 1, 2, 1⟩] ⟨"d", "ns", 1, 2, 1⟩).2
      (by decide) (by decide)⟩

/-! ## Claim about the broadcast delivery pass -/

/-- **C1.**  The claim fails on the code.  In a delivery pass over
subscribers 0, 1, 2 in which subscriber 1's outbound socket buffer is
full — so its `WriteJSON` blocks, because the source sets no write
deadline and a full buffer is not a write error — only subscriber 0
receives the snapshot: subscriber 2, registered and healthy, never
does; subscriber 1 is neither closed nor unregistered; and the loop is
stuck at subscriber 1 forever.  A write that *errors*, by contrast, is
dropped exactly as the claim says (last conjunct).  So, against the
claim, `publish` does not deliver to every registered subscriber when
one subscriber's channel is full, the full subscriber is not dropped,
and delivery to that one subscriber blocks the rest. -/
theorem publish_blocks_on_full_subscriber :
    broadcastPass
        (fun c => if c == 1 then WriteResult.block else WriteResult.ok)
        [0, 1, 2] =
      ⟨[0], [], [0, 1, 2], some 1⟩ ∧
    2 ∉ (broadcastPass
        (fun c => if c == 1 then WriteResult.block else WriteResult.ok)
        [0, 1, 2]).delivered ∧
    1 ∉ (broadcastPass
        (fun c => if c == 1 then WriteResult.block else WriteResult.ok)
        [0, 1, 2]).closed ∧
    1 ∈ (broadcastPass
        (fun c => if c == 1 then WriteResult.block else WriteResult.ok)
        [0, 1, 2]).remaining ∧
    broadcastPass
        (fun c => if c == 1 then WriteResult.error else WriteResult.ok)
        [0, 1, 2] =
      ⟨[0, 2], [1], [0, 2], none⟩ :=
  ⟨rfl, by decide, by decide, by decide, rfl⟩

/-! ## Claim about the lock discipline of the subscriber set -/

/-- The safety invariant of the `clientsMux` usage: a thread inside the
write section excludes every other thread from any section, and only
the publisher thread is ever inside the read section. -/
def HubInv (cfg : HubConfig) : Prop :=
  (∀ t, cfg t = Region.writeCS → ∀ u, u ≠ t → cfg u = Region.outside) ∧
  (∀ t, cfg t = Region.readCS → t = 0)

/-- Every `HubStep` preserves the invariant. -/
lemma hub_step_invariant (c c' : HubConfig) (hstep : HubStep c c')
    (ih : HubInv c) : HubInv c' := by
  cases hstep with
  | enterRead h0 hnw =>
      constructor
      · intro t ht u hu
        by_cases h : t = 0
        · subst h
          simp [setRegion] at ht
        · have hw : c t = Region.writeCS := by
            simpa [setRegion, h] using ht
          exact absurd hw (hnw t)
      · intro t ht
        by_cases h : t = 0
        · exact h
        · have hr : c t = Region.readCS := by
            simpa [setRegion, h] using ht
          exact ih.2 t hr
  | exitRead h0 =>
      constructor
      · intro t ht u hu
        by_cases h : t = 0
        · subst h
          simp [setRegion] at ht
        · have hw : c t = Region.writeCS := by
            simpa [setRegion, h] using ht
          have h0out := ih.1 t hw 0 (fun he => h he.symm)
          rw [h0] at h0out
          exact absurd h0out (by simp)
      · intro t ht
        by_cases h : t = 0
        · exact h
        · have hr : c t = Region.readCS := by
            simpa [setRegion, h] using ht
          exact ih.2 t hr
  | enterWrite t htne ht0 hothers =>
      constructor
      · intro a ha u hu
        by_cases hat : a = t
        · subst hat
          have hut : u ≠ a := hu
          simp only [setRegion, if_neg hut]
          exact hothers u hut
        · have hw : c a = Region.writeCS := by
            simpa [setRegion, hat] using ha
          have hout := hothers a hat
          rw [hout] at hw
          exact absurd hw (by simp)
      · intro a ha
        by_cases hat : a = t
        · subst hat
          simp [setRegion] at ha
        · have hr : c a = Region.readCS := by
            simpa [setRegion, hat] using ha
          have hout := hothers a hat
          rw [hout] at hr
          exact absurd hr (by simp)
  | exitWrite t htne htw =>
      constructor
      · intro a ha u hu
        by_cases hat : a = t
        · subst hat
          simp [setRegion] at ha
        · have hw : c a = Region.writeCS := by
            simpa [setRegion, hat] using ha
          have hout := ih.1 a hw t (fun he => hat he.symm)
          rw [htw] at hout
          exact absurd hout (by simp)
      · intro a ha
        by_cases hat : a = t
        · subst hat
          simp [setRegion] at ha
        · have hr : c a = Region.readCS := by
            simpa [setRegion, hat] using ha
          exact ih.2 a hr

/-- Every reachable configuration satisfies the invariant. -/
lemma hub_invariant (cfg : HubConfig) (h : HubReachable cfg) :
    HubInv cfg := by
  induction h with
  | refl =>
      constructor
      · intro t ht
        exact absurd ht (by simp [hubInit])
      · intro t ht
        exact absurd ht (by simp [hubInit])
  | tail hsteps hstep ih =>
      exact hub_step_invariant _ _ hstep ih

/-- **C2.**  In every reachable configuration of the `clientsMux`
discipline, register (on connect), unregister (on disconnect) and the
publish iteration are mutually exclusive on the subscriber set: no
thread may mutate the set (register or unregister, which require the
write section) while another thread runs the publish iteration (which
requires the read section); two mutating threads also exclude each
other; and at most one thread — the single broadcast consumer — can run
a publish iteration at a time, so no add or remove of a subscriber ever
overlaps a concurrent publish. -/
theorem subscriber_set_mutual_exclusion (cfg : HubConfig)
    (h : HubReachable cfg) :
    (∀ t u, mayPerform cfg t HubOp.register →
      ¬ mayPerform cfg u HubOp.publishIterate) ∧
    (∀ t u, mayPerform cfg t HubOp.unregister →
      ¬ mayPerform cfg u HubOp.publishIterate) ∧
    (∀ t u, mayPerform cfg t HubOp.register →
      mayPerform cfg u HubOp.unregister → t = u) ∧
    (∀ t u, mayPerform cfg t HubOp.publishIterate →
      mayPerform cfg u HubOp.publishIterate → t = u) := by
  obtain ⟨inv1, inv2⟩ := hub_invariant cfg h
  have hexcl : ∀ t u, cfg t = Region.writeCS → cfg u = Region.readCS →
      False := by
    intro t u htw hur
    by_cases hne : u = t
    · subst hne
      rw [htw] at hur
      simp at hur
    · have := inv1 t htw u hne
      rw [this] at hur
      simp at hur
  refine ⟨?_, ?_, ?_, ?_⟩
  · intro t u hmt hmu
    exact hexcl t u hmt.1 hmu.1
  · intro t u hmt hmu
    exact hexcl t u hmt.1 hmu.1
  · intro t u hmt hmu
    by_cases hne : u = t
    · exact hne.symm
    · have := inv1 t hmt.1 u hne
      have hu := hmu.1
      rw [this] at hu
      simp [opRegion] at hu
  · intro t u hmt hmu
    have ht0 : t = 0 := hmt.2.mp rfl
    have hu0 : u = 0 := hmu.2.mp rfl
    rw [ht0, hu0]

/-- Concrete instantiation of `subscriber_set_mutual_exclusion`: in the
reachable configuration where handler thread 1 holds the write lock for
a register, no thread may run the publish iteration; and in the
reachable configuration where the publisher holds the read lock, any
two threads running the publish iteration coincide. -/
theorem subscriber_set_mutual_exclusion_witness :
    ¬ mayPerform (setRegion hubInit 1 Region.writeCS) 0
        HubOp.publishIterate ∧
    (0 : ThreadId) = 0 :=
  ⟨(subscriber_set_mutual_exclusion (setRegion hubInit 1 Region.writeCS)
      (Relation.ReflTransGen.single
        (HubStep.enterWrite hubInit 1 (by decide) rfl
          (fun u _ => rfl)))).1 1 0 ⟨rfl, by decide⟩,
   (subscriber_set_mutual_exclusion (setRegion hubInit 0 Region.readCS)
      (Relation.ReflTransGen.single
        (HubStep.enterRead hubInit rfl (fun u h => nomatch h)))).2.2.2
      0 0 ⟨rfl, by decide⟩ ⟨rfl, by decide⟩⟩

end PodVisualizer
